import Mathlib

/-!
Verification of the `vte-input` keyboard-protocol encoder.

This file shallowly embeds the three source files of the crate
(`src/lib.rs`, `src/key.rs`, `src/sequence.rs`) as executable Lean
definitions and proves properties of the encoding decision procedure
`generate_sequence` and of the serialization grammar of `Sequence`.

Machine integers are modelled as `Nat`; the only place where fixed-width
behaviour matters is the modifier display (`bits as u16 + 1`), where the
reductions modulo `2^8` and `2^16` are written out explicitly.
-/

/-- Embeds the `KeyboardModifiers` bitflags (u8) of `src/sequence.rs`.
`bits` carries the flag bits; every value built by the crate satisfies `bits < 256`. -/
structure KeyboardModifiers where
  bits : Nat
deriving DecidableEq, Repr

def KeyboardModifiers.SHIFT : KeyboardModifiers := ⟨1⟩

def KeyboardModifiers.ALT : KeyboardModifiers := ⟨2⟩

def KeyboardModifiers.CTRL : KeyboardModifiers := ⟨4⟩

def KeyboardModifiers.SUPER : KeyboardModifiers := ⟨8⟩

def KeyboardModifiers.HYPER : KeyboardModifiers := ⟨16⟩

def KeyboardModifiers.META : KeyboardModifiers := ⟨32⟩

def KeyboardModifiers.CAPS_LOCK : KeyboardModifiers := ⟨64⟩

def KeyboardModifiers.NUM_LOCK : KeyboardModifiers := ⟨128⟩

/-- `KeyboardModifiers::empty()` of the bitflags crate. -/
def KeyboardModifiers.emptySet : KeyboardModifiers := ⟨0⟩

/-- `KeyboardModifiers::all()` of the bitflags crate: all eight flags set. -/
def KeyboardModifiers.allSet : KeyboardModifiers := ⟨255⟩

/-- bitflags `intersects`: the two flag sets share at least one bit. -/
def KeyboardModifiers.intersects (a b : KeyboardModifiers) : Bool :=
  a.bits &&& b.bits ≠ 0

/-- bitflags `difference`: `self & !other`, the complement taken inside the 8-bit universe. -/
def KeyboardModifiers.difference (a b : KeyboardModifiers) : KeyboardModifiers :=
  ⟨a.bits &&& (b.bits ^^^ 255)⟩

/-- bitflags `is_empty`. -/
def KeyboardModifiers.isEmpty (a : KeyboardModifiers) : Bool :=
  a.bits = 0

/-- Embeds `impl Display for KeyboardModifiers` of `src/sequence.rs`:
`write!(f, "{}", self.bits() as u16 + 1)`. The `% 256` models the `u8` payload
and the `% 65536` the `u16` addition. -/
def KeyboardModifiers.fmt (m : KeyboardModifiers) : String :=
  toString ((m.bits % 256 + 1) % 65536)

/-- Embeds the `EventType` enum of `src/sequence.rs`. -/
inductive EventType where
  | Press
  | Repeat
  | Release
deriving DecidableEq, Repr

/-- Embeds `impl Display for EventType` of `src/sequence.rs`. -/
def EventType.fmt : EventType → String
  | EventType.Press => "1"
  | EventType.Repeat => "2"
  | EventType.Release => "3"

/-- Embeds the `SequenceIntroducer` enum of `src/sequence.rs`. -/
inductive SequenceIntroducer where
  | CSI
  | SS3
deriving DecidableEq, Repr

/-- Embeds `impl Display for SequenceIntroducer` of `src/sequence.rs`. -/
def SequenceIntroducer.fmt : SequenceIntroducer → String
  | SequenceIntroducer.CSI => "\x1b["
  | SequenceIntroducer.SS3 => "\x1bO"

/-- Embeds the `SequenceTerminator` enum of `src/sequence.rs`. -/
inductive SequenceTerminator where
  | Kitty
  | Other (c : Char)
deriving DecidableEq, Repr

/-- Embeds `impl Display for SequenceTerminator` of `src/sequence.rs`. -/
def SequenceTerminator.fmt : SequenceTerminator → String
  | SequenceTerminator.Kitty => "u"
  | SequenceTerminator.Other c => String.mk [c]

/-- Embeds the `KeyCode` struct of `src/sequence.rs` (`u32` codes as `Nat`). -/
structure KeyCode where
  key_code : Nat
  shifted_key_code : Option Nat
  base_layout_key_code : Option Nat
deriving DecidableEq, Repr

/-- `KeyCode::default()`: all-zero / absent fields. -/
def KeyCode.default : KeyCode :=
  { key_code := 0, shifted_key_code := none, base_layout_key_code := none }

/-- Embeds `impl Display for KeyCode` of `src/sequence.rs`: the match on
`(key_code, shifted_key_code, base_layout_key_code)` in source order. -/
def KeyCode.fmt (k : KeyCode) : String :=
  match k.key_code, k.shifted_key_code, k.base_layout_key_code with
  | 1, none, none => ""
  | _, none, none => toString k.key_code
  | _, some alternate, none => toString k.key_code ++ ":" ++ toString alternate
  | _, none, some base => toString k.key_code ++ "::" ++ toString base
  | _, some alternate, some base =>
      toString k.key_code ++ ":" ++ toString alternate ++ ":" ++ toString base

/-- Embeds the `AssociatedText` wrapper of `src/sequence.rs` (a borrowed `str` in Rust). -/
structure AssociatedText where
  text : String
deriving DecidableEq, Repr

/-- Embeds `impl Display for AssociatedText` of `src/sequence.rs`: the scalar
values of the text, colon-separated, in decimal. -/
def AssociatedText.fmt (a : AssociatedText) : String :=
  match a.text.toList with
  | [] => ""
  | c :: cs => cs.foldl (fun s ch => s ++ ":" ++ toString ch.toNat) (toString c.toNat)

/-- Embeds the `Sequence` struct of `src/sequence.rs`. -/
structure Sequence where
  introducer : SequenceIntroducer
  key_code : KeyCode
  modifier : KeyboardModifiers
  event_type : EventType
  associated_text : Option AssociatedText
  terminator : SequenceTerminator
deriving DecidableEq, Repr

/-- `Sequence::default()`. -/
def Sequence.default : Sequence :=
  { introducer := SequenceIntroducer.CSI
    key_code := KeyCode.default
    modifier := KeyboardModifiers.emptySet
    event_type := EventType.Press
    associated_text := none
    terminator := SequenceTerminator.Kitty }

/-- The trailing-field block of `impl Display for Sequence` in `src/sequence.rs`:
the match on `(self.modifier.is_empty(), self.event_type, &self.associated_text)`,
arms in source order (first match wins). -/
def Sequence.trailing (s : Sequence) : String :=
  match s.modifier.isEmpty, s.event_type, s.associated_text with
  | true, EventType.Press, none => ""
  | false, EventType.Press, none => ";" ++ s.modifier.fmt
  | true, EventType.Press, some associated => ";;" ++ associated.fmt
  | _, _, none => ";" ++ s.modifier.fmt ++ ":" ++ s.event_type.fmt
  | false, EventType.Press, some associated =>
      ";" ++ s.modifier.fmt ++ ";" ++ associated.fmt
  | _, _, some associated =>
      ";" ++ s.modifier.fmt ++ ":" ++ s.event_type.fmt ++ ";" ++ associated.fmt

/-- Embeds `impl Display for Sequence` of `src/sequence.rs`: introducer, key-code
field, trailing block, then the terminator, concatenated in that order.
(The `debug_assert!` guarding this impl is modelled separately as
`Sequence.shiftInvariantHolds`.) -/
def Sequence.fmt (s : Sequence) : String :=
  s.introducer.fmt ++ s.key_code.fmt ++ s.trailing ++ s.terminator.fmt

/-- The condition of the `debug_assert!` in `impl Display for Sequence`
(`src/sequence.rs` lines 17-23): if the Shift flag is set the shifted
alternate code must be populated. -/
def Sequence.shiftInvariantHolds (s : Sequence) : Bool :=
  !(s.modifier.intersects KeyboardModifiers.SHIFT) || s.key_code.shifted_key_code.isSome

/-- Skeleton built by the `seq!(num)` macro arm in `FunctionalKey::to_sequence`. -/
def seqOfCode (n : Nat) : Sequence :=
  { Sequence.default with key_code := { KeyCode.default with key_code := n } }

/-- Skeleton built by the `seq!(num, ch)` macro arm in `FunctionalKey::to_sequence`. -/
def seqWithTerminator (n : Nat) (c : Char) : Sequence :=
  { seqOfCode n with terminator := SequenceTerminator.Other c }
/-- Embeds the `FunctionalKey` enum of `src/key.rs` (the closed catalog of named keys). -/
inductive FunctionalKey where
  | Escape
  | Enter
  | Tab
  | Backspace
  | Insert
  | Delete
  | Left
  | Right
  | Up
  | Down
  | PageUp
  | PageDown
  | Home
  | End
  | CapsLock
  | ScrollLock
  | NumLock
  | PrintScreen
  | Pause
  | Menu
  | F1
  | F2
  | F3
  | F4
  | F5
  | F6
  | F7
  | F8
  | F9
  | F10
  | F11
  | F12
  | F13
  | F14
  | F15
  | F16
  | F17
  | F18
  | F19
  | F20
  | F21
  | F22
  | F23
  | F24
  | F25
  | F26
  | F27
  | F28
  | F29
  | F30
  | F31
  | F32
  | F33
  | F34
  | F35
  | NumPad0
  | NumPad1
  | NumPad2
  | NumPad3
  | NumPad4
  | NumPad5
  | NumPad6
  | NumPad7
  | NumPad8
  | NumPad9
  | NumPadDecimal
  | NumPadDivide
  | NumPadMultply
  | NumPadSubtract
  | NumPadAdd
  | NumPadEnter
  | NumPadEqual
  | NumPadSeparator
  | NumPadLeft
  | NumPadRight
  | NumPadUp
  | NumPadDown
  | NumPadPageUp
  | NumPadPageDown
  | NumPadHome
  | NumPadEnd
  | NumPadInsert
  | NumPadDelete
  | NumPadBegin
  | MediaPlay
  | MediaPause
  | MediaPlayPause
  | MediaReverse
  | MediaStop
  | MediaFastForward
  | MediaRewind
  | MediaTrackNext
  | MediaTrackPrevious
  | MediaRecord
  | LowerVolume
  | RaiseVolume
  | MuteVolume
  | LeftShift
  | LeftControl
  | LeftAlt
  | LeftSuper
  | LeftHyper
  | LeftMeta
  | RightShift
  | RightControl
  | RightAlt
  | RightSuper
  | RightHyper
  | RightMeta
  | IsoLevel3Shift
  | IsoLevel5Shift
deriving DecidableEq, Repr

/-- Embeds `FunctionalKey::to_sequence` of `src/key.rs`: the static lookup table from
functional key to escape-sequence skeleton (numeric code plus optional terminator override). -/
def FunctionalKey.to_sequence : FunctionalKey → Sequence
  | FunctionalKey.Escape => seqOfCode 27
  | FunctionalKey.Enter => seqOfCode 13
  | FunctionalKey.Tab => seqOfCode 9
  | FunctionalKey.Backspace => seqOfCode 127
  | FunctionalKey.Insert => seqWithTerminator 2 '~'
  | FunctionalKey.Delete => seqWithTerminator 3 '~'
  | FunctionalKey.Left => seqWithTerminator 1 'D'
  | FunctionalKey.Right => seqWithTerminator 1 'C'
  | FunctionalKey.Up => seqWithTerminator 1 'A'
  | FunctionalKey.Down => seqWithTerminator 1 'B'
  | FunctionalKey.PageUp => seqWithTerminator 5 '~'
  | FunctionalKey.PageDown => seqWithTerminator 6 '~'
  | FunctionalKey.Home => seqWithTerminator 1 'H'
  | FunctionalKey.End => seqWithTerminator 1 'F'
  | FunctionalKey.CapsLock => seqOfCode 57358
  | FunctionalKey.ScrollLock => seqOfCode 57359
  | FunctionalKey.NumLock => seqOfCode 57360
  | FunctionalKey.PrintScreen => seqOfCode 57361
  | FunctionalKey.Pause => seqOfCode 57362
  | FunctionalKey.Menu => seqOfCode 57363
  | FunctionalKey.F1 => seqWithTerminator 1 'P'
  | FunctionalKey.F2 => seqWithTerminator 1 'Q'
  | FunctionalKey.F3 => seqWithTerminator 13 '~'
  | FunctionalKey.F4 => seqWithTerminator 1 'S'
  | FunctionalKey.F5 => seqWithTerminator 15 '~'
  | FunctionalKey.F6 => seqWithTerminator 17 '~'
  | FunctionalKey.F7 => seqWithTerminator 18 '~'
  | FunctionalKey.F8 => seqWithTerminator 19 '~'
  | FunctionalKey.F9 => seqWithTerminator 20 '~'
  | FunctionalKey.F10 => seqWithTerminator 21 '~'
  | FunctionalKey.F11 => seqWithTerminator 23 '~'
  | FunctionalKey.F12 => seqWithTerminator 24 '~'
  | FunctionalKey.F13 => seqOfCode 57376
  | FunctionalKey.F14 => seqOfCode 57377
  | FunctionalKey.F15 => seqOfCode 57378
  | FunctionalKey.F16 => seqOfCode 57379
  | FunctionalKey.F17 => seqOfCode 57380
  | FunctionalKey.F18 => seqOfCode 57381
  | FunctionalKey.F19 => seqOfCode 57382
  | FunctionalKey.F20 => seqOfCode 57383
  | FunctionalKey.F21 => seqOfCode 57384
  | FunctionalKey.F22 => seqOfCode 57385
  | FunctionalKey.F23 => seqOfCode 57386
  | FunctionalKey.F24 => seqOfCode 57387
  | FunctionalKey.F25 => seqOfCode 57388
  | FunctionalKey.F26 => seqOfCode 57389
  | FunctionalKey.F27 => seqOfCode 57390
  | FunctionalKey.F28 => seqOfCode 57391
  | FunctionalKey.F29 => seqOfCode 57392
  | FunctionalKey.F30 => seqOfCode 57393
  | FunctionalKey.F31 => seqOfCode 57394
  | FunctionalKey.F32 => seqOfCode 57395
  | FunctionalKey.F33 => seqOfCode 57396
  | FunctionalKey.F34 => seqOfCode 57397
  | FunctionalKey.F35 => seqOfCode 57398
  | FunctionalKey.NumPad0 => seqOfCode 57399
  | FunctionalKey.NumPad1 => seqOfCode 57400
  | FunctionalKey.NumPad2 => seqOfCode 57401
  | FunctionalKey.NumPad3 => seqOfCode 57402
  | FunctionalKey.NumPad4 => seqOfCode 57403
  | FunctionalKey.NumPad5 => seqOfCode 57404
  | FunctionalKey.NumPad6 => seqOfCode 57405
  | FunctionalKey.NumPad7 => seqOfCode 57406
  | FunctionalKey.NumPad8 => seqOfCode 57407
  | FunctionalKey.NumPad9 => seqOfCode 57408
  | FunctionalKey.NumPadDecimal => seqOfCode 57409
  | FunctionalKey.NumPadDivide => seqOfCode 57410
  | FunctionalKey.NumPadMultply => seqOfCode 57411
  | FunctionalKey.NumPadSubtract => seqOfCode 57412
  | FunctionalKey.NumPadAdd => seqOfCode 57413
  | FunctionalKey.NumPadEnter => seqOfCode 57414
  | FunctionalKey.NumPadEqual => seqOfCode 57415
  | FunctionalKey.NumPadSeparator => seqOfCode 57416
  | FunctionalKey.NumPadLeft => seqOfCode 57417
  | FunctionalKey.NumPadRight => seqOfCode 57418
  | FunctionalKey.NumPadUp => seqOfCode 57419
  | FunctionalKey.NumPadDown => seqOfCode 57420
  | FunctionalKey.NumPadPageUp => seqOfCode 57421
  | FunctionalKey.NumPadPageDown => seqOfCode 57422
  | FunctionalKey.NumPadHome => seqOfCode 57423
  | FunctionalKey.NumPadEnd => seqOfCode 57424
  | FunctionalKey.NumPadInsert => seqOfCode 57425
  | FunctionalKey.NumPadDelete => seqOfCode 57426
  | FunctionalKey.NumPadBegin => seqWithTerminator 1 'E'
  | FunctionalKey.MediaPlay => seqOfCode 57428
  | FunctionalKey.MediaPause => seqOfCode 57429
  | FunctionalKey.MediaPlayPause => seqOfCode 57430
  | FunctionalKey.MediaReverse => seqOfCode 57431
  | FunctionalKey.MediaStop => seqOfCode 57432
  | FunctionalKey.MediaFastForward => seqOfCode 57433
  | FunctionalKey.MediaRewind => seqOfCode 57434
  | FunctionalKey.MediaTrackNext => seqOfCode 57435
  | FunctionalKey.MediaTrackPrevious => seqOfCode 57436
  | FunctionalKey.MediaRecord => seqOfCode 57437
  | FunctionalKey.LowerVolume => seqOfCode 57438
  | FunctionalKey.RaiseVolume => seqOfCode 57439
  | FunctionalKey.MuteVolume => seqOfCode 57440
  | FunctionalKey.LeftShift => seqOfCode 57441
  | FunctionalKey.LeftControl => seqOfCode 57442
  | FunctionalKey.LeftAlt => seqOfCode 57443
  | FunctionalKey.LeftSuper => seqOfCode 57444
  | FunctionalKey.LeftHyper => seqOfCode 57445
  | FunctionalKey.LeftMeta => seqOfCode 57446
  | FunctionalKey.RightShift => seqOfCode 57447
  | FunctionalKey.RightControl => seqOfCode 57448
  | FunctionalKey.RightAlt => seqOfCode 57449
  | FunctionalKey.RightSuper => seqOfCode 57450
  | FunctionalKey.RightHyper => seqOfCode 57451
  | FunctionalKey.RightMeta => seqOfCode 57452
  | FunctionalKey.IsoLevel3Shift => seqOfCode 57453
  | FunctionalKey.IsoLevel5Shift => seqOfCode 57454

/-- Embeds `FunctionalKey::is_numpad` of `src/key.rs`. -/
def FunctionalKey.is_numpad : FunctionalKey → Bool
  | FunctionalKey.NumPad0 => true
  | FunctionalKey.NumPad1 => true
  | FunctionalKey.NumPad2 => true
  | FunctionalKey.NumPad3 => true
  | FunctionalKey.NumPad4 => true
  | FunctionalKey.NumPad5 => true
  | FunctionalKey.NumPad6 => true
  | FunctionalKey.NumPad7 => true
  | FunctionalKey.NumPad8 => true
  | FunctionalKey.NumPad9 => true
  | FunctionalKey.NumPadDecimal => true
  | FunctionalKey.NumPadDivide => true
  | FunctionalKey.NumPadMultply => true
  | FunctionalKey.NumPadSubtract => true
  | FunctionalKey.NumPadAdd => true
  | FunctionalKey.NumPadEnter => true
  | FunctionalKey.NumPadEqual => true
  | FunctionalKey.NumPadSeparator => true
  | FunctionalKey.NumPadLeft => true
  | FunctionalKey.NumPadRight => true
  | FunctionalKey.NumPadUp => true
  | FunctionalKey.NumPadDown => true
  | FunctionalKey.NumPadPageUp => true
  | FunctionalKey.NumPadPageDown => true
  | FunctionalKey.NumPadHome => true
  | FunctionalKey.NumPadEnd => true
  | FunctionalKey.NumPadInsert => true
  | FunctionalKey.NumPadDelete => true
  | FunctionalKey.NumPadBegin => true
  | _ => false
/-- Embeds `FunctionalKey::legacy_representation` of `src/key.rs`: only
Escape, Enter, Tab and Backspace have a legacy string. -/
def FunctionalKey.legacy_representation : FunctionalKey → Option String
  | FunctionalKey.Escape => some "\x1b"
  | FunctionalKey.Enter => some "\r"
  | FunctionalKey.Tab => some "\t"
  | FunctionalKey.Backspace => some "\x08"
  | _ => none

/-- Embeds the `KeyType` enum of `src/key.rs`. -/
inductive KeyType where
  | Unicode (c : Char)
  | Functional (f : FunctionalKey)
  | Unknown
deriving DecidableEq, Repr

/-- Embeds `KeyType::to_sequence` of `src/key.rs`. -/
def KeyType.to_sequence : KeyType → Option Sequence
  | KeyType.Unicode ch => some (seqOfCode ch.toNat)
  | KeyType.Functional func => some func.to_sequence
  | KeyType.Unknown => none

/-- Embeds `KeyType::to_key_code` of `src/key.rs`: only Unicode keys have a
bare numeric code; functional and unknown keys yield `None`. -/
def KeyType.to_key_code : KeyType → Option Nat
  | KeyType.Unicode ch => some ch.toNat
  | _ => none

/-- Embeds the `ReportingMode` bitflags (u8) of `src/lib.rs`. -/
structure ReportingMode where
  bits : Nat
deriving DecidableEq, Repr

def ReportingMode.DISAMBIGUATE_ESC_CODES : ReportingMode := ⟨1⟩

def ReportingMode.REPORT_EVENT_TYPES : ReportingMode := ⟨2⟩

def ReportingMode.REPORT_ALTERNATE_KEYS : ReportingMode := ⟨4⟩

def ReportingMode.REPORT_ALL_KEYS_AS_ESC : ReportingMode := ⟨8⟩

def ReportingMode.REPORT_ASSOCIATED_TEXT : ReportingMode := ⟨16⟩

/-- `ReportingMode::empty()`. -/
def ReportingMode.emptySet : ReportingMode := ⟨0⟩

/-- bitflags `intersects` for `ReportingMode`. -/
def ReportingMode.intersects (a b : ReportingMode) : Bool :=
  a.bits &&& b.bits ≠ 0

/-- bitflags `|` (union) for `ReportingMode`. -/
def ReportingMode.union (a b : ReportingMode) : ReportingMode :=
  ⟨a.bits ||| b.bits⟩

/-- Embeds the `EventResponse` enum of `src/lib.rs`. -/
inductive EventResponse where
  | Text (text : String) (alt_pressed : Bool)
  | Character (character : Char) (alt_pressed : Bool)
  | Sequence (seq : Sequence)
  | Nothing
deriving DecidableEq, Repr

/-- Embeds `impl Display for EventResponse` of `src/lib.rs`: Text/Character are
emitted bare, or with a leading ESC byte when `alt_pressed` is set; a
structured sequence defers to `Sequence`'s grammar; `Nothing` writes nothing. -/
def EventResponse.fmt : EventResponse → String
  | EventResponse.Text text false => text
  | EventResponse.Text text true => "\x1b" ++ text
  | EventResponse.Character character false => String.mk [character]
  | EventResponse.Character character true => "\x1b" ++ String.mk [character]
  | EventResponse.Sequence seq => seq.fmt
  | EventResponse.Nothing => ""

/-- Embeds the `KeyEvent` trait of `src/lib.rs` as a record of its six
accessors (the encoder only ever reads these). -/
structure KeyEvent where
  key_with_modifiers : KeyType
  key_without_modifiers : KeyType
  key_base_layout : KeyType
  modifiers : KeyboardModifiers
  event_type : EventType
  associated_text : Option AssociatedText
deriving DecidableEq, Repr

/-- The response-shape selection of `generate_sequence` (`src/lib.rs` lines
89-150): the value bound to `response` before the augmentation match. -/
def selectResponse (mode : ReportingMode) (key_event : KeyEvent) : EventResponse :=
  let shifted_key := key_event.key_with_modifiers
  let unshifted_key := key_event.key_without_modifiers
  let modifiers := key_event.modifiers
  if mode.intersects ReportingMode.REPORT_ALL_KEYS_AS_ESC then
    match unshifted_key.to_sequence with
    | some sequence => EventResponse.Sequence sequence
    | none => EventResponse.Nothing
  else if mode.intersects ReportingMode.DISAMBIGUATE_ESC_CODES then
    let exception :=
      match unshifted_key with
      | KeyType.Functional FunctionalKey.Enter => true
      | KeyType.Functional FunctionalKey.Tab => true
      | KeyType.Functional FunctionalKey.Backspace => true
      | _ => false
    if (modifiers.difference KeyboardModifiers.SHIFT).isEmpty || exception then
      match shifted_key with
      | KeyType.Functional func =>
          if func = FunctionalKey.Escape then
            EventResponse.Sequence func.to_sequence
          else if func.is_numpad then
            EventResponse.Sequence func.to_sequence
          else
            match func.legacy_representation with
            | some repr => EventResponse.Text repr false
            | none => EventResponse.Sequence func.to_sequence
      | KeyType.Unicode character => EventResponse.Character character false
      | KeyType.Unknown => EventResponse.Nothing
    else
      match unshifted_key.to_sequence with
      | some sequence => EventResponse.Sequence sequence
      | none => EventResponse.Nothing
  else
    match shifted_key with
    | KeyType.Unicode character =>
        EventResponse.Character character (modifiers.intersects KeyboardModifiers.ALT)
    | KeyType.Functional func =>
        match func.legacy_representation.or (key_event.associated_text.map
            (fun a => a.text)) with
        | some text =>
            EventResponse.Text text (modifiers.intersects KeyboardModifiers.ALT)
        | none => EventResponse.Sequence func.to_sequence
    | KeyType.Unknown => EventResponse.Nothing

/-- The augmentation step of `generate_sequence` (`src/lib.rs` lines 152-172):
the in-place mutations applied to a selected `Sequence` response, as a pure
update. -/
def augmentSequence (mode : ReportingMode) (key_event : KeyEvent)
    (s : Sequence) : Sequence :=
  let modifiers := key_event.modifiers
  let s := { s with modifier := modifiers }
  let s :=
    if mode.intersects ReportingMode.REPORT_EVENT_TYPES then
      { s with event_type := key_event.event_type }
    else s
  let s :=
    if mode.intersects ReportingMode.REPORT_ALTERNATE_KEYS then
      { s with key_code :=
        { s.key_code with
            shifted_key_code :=
              if modifiers.intersects KeyboardModifiers.SHIFT then
                key_event.key_with_modifiers.to_key_code
              else s.key_code.shifted_key_code
            base_layout_key_code := key_event.key_base_layout.to_key_code } }
    else s
  if mode.intersects ReportingMode.REPORT_ASSOCIATED_TEXT then
    { s with associated_text := key_event.associated_text }
  else s

/-- Embeds `generate_sequence` of `src/lib.rs`: release suppression, response
shape selection, augmentation of structured sequences, and the final release
override for non-sequence responses. -/
def generate_sequence (mode : ReportingMode) (key_event : KeyEvent) : EventResponse :=
  if key_event.event_type = EventType.Release ∧
      ¬ mode.intersects ReportingMode.REPORT_EVENT_TYPES then
    EventResponse.Nothing
  else
    match selectResponse mode key_event with
    | EventResponse.Sequence sequence =>
        EventResponse.Sequence (augmentSequence mode key_event sequence)
    | response =>
        if key_event.event_type = EventType.Release then EventResponse.Nothing
        else response

/-- Whether a response is a structured sequence. -/
def EventResponse.isSequenceResponse : EventResponse → Bool
  | EventResponse.Sequence _ => true
  | _ => false

/-- Whether a response is a `Text` or `Character` response. -/
def EventResponse.isTextOrCharacter : EventResponse → Bool
  | EventResponse.Text _ _ => true
  | EventResponse.Character _ _ => true
  | _ => false

/-- The serialization invariant lifted to responses: a structured-sequence
response must satisfy `Sequence.shiftInvariantHolds`; other response shapes
carry no modifier field and satisfy it vacuously. -/
def EventResponse.shiftInvariantHolds : EventResponse → Bool
  | EventResponse.Sequence s => s.shiftInvariantHolds
  | _ => true

/-- The numeric key-code field as the spec describes it: empty string for
primary code 1 with no alternates, otherwise the decimal primary code followed
by one of `:shifted`, `::base`, or `:shifted:base` depending on which
alternates are present. -/
def claimKeyCodeFmt (k : KeyCode) : String :=
  if k.key_code = 1 ∧ k.shifted_key_code = none ∧ k.base_layout_key_code = none then ""
  else
    toString k.key_code ++
      match k.shifted_key_code, k.base_layout_key_code with
      | some alternate, none => ":" ++ toString alternate
      | none, some base => "::" ++ toString base
      | some alternate, some base => ":" ++ toString alternate ++ ":" ++ toString base
      | none, none => ""

/-- The spec's `exception` predicate for disambiguate mode: the
modifier-stripped key is Enter, Tab, or Backspace. -/
def isLegacyException : KeyType → Bool
  | KeyType.Functional FunctionalKey.Enter => true
  | KeyType.Functional FunctionalKey.Tab => true
  | KeyType.Functional FunctionalKey.Backspace => true
  | _ => false

/-- The response produced inside the disambiguate-mode legacy-treatment
branch, as the spec enumerates it, a function of the modifier-affected key
alone: Escape and numeric-keypad keys escape-encode, any other functional key
prefers its legacy representation over its sequence skeleton, a Unicode key
becomes a bare character, Unknown becomes Nothing. -/
def disambiguateLegacyResponse : KeyType → EventResponse
  | KeyType.Functional func =>
      if func = FunctionalKey.Escape then EventResponse.Sequence func.to_sequence
      else if func.is_numpad then EventResponse.Sequence func.to_sequence
      else
        match func.legacy_representation with
        | some repr => EventResponse.Text repr false
        | none => EventResponse.Sequence func.to_sequence
  | KeyType.Unicode character => EventResponse.Character character false
  | KeyType.Unknown => EventResponse.Nothing

/-- Claim C1: the claim states that every structured sequence returned by
`generate_sequence` satisfies the shift/shifted-alternate serialization
invariant. The code violates it: with no reporting flags (and likewise with
only alternate-key reporting), a press of the Up arrow with Shift held yields
a sequence whose modifier set contains Shift but whose shifted alternate code
is `none` — `KeyType.to_key_code` returns `none` for functional keys, so the
augmentation step cannot populate it. Serializing this output trips the
library's own debug assertion. -/
theorem generate_sequence_violates_shift_invariant :
    (generate_sequence ReportingMode.emptySet
      ⟨KeyType.Functional FunctionalKey.Up, KeyType.Functional FunctionalKey.Up,
        KeyType.Functional FunctionalKey.Up, KeyboardModifiers.SHIFT,
        EventType.Press, none⟩).shiftInvariantHolds = false ∧
    (generate_sequence ReportingMode.REPORT_ALTERNATE_KEYS
      ⟨KeyType.Functional FunctionalKey.Up, KeyType.Functional FunctionalKey.Up,
        KeyType.Functional FunctionalKey.Up, KeyboardModifiers.SHIFT,
        EventType.Press, none⟩).shiftInvariantHolds = false := by decide

/-- Claim C2 (counterexample): in the mode with disambiguate, event-types and
alternate-keys set but force-escape not set, a press of Unicode 'A'
(modifier-stripped 'a', Shift active) serializes to `A`, not to the claimed
`ESC[97:65;2u` — the disambiguate branch returns a bare `Character` response
for Unicode keys when only Shift is held. -/
theorem shifted_A_without_force_escape_is_bare_character :
    (generate_sequence
      ((ReportingMode.DISAMBIGUATE_ESC_CODES.union
        ReportingMode.REPORT_EVENT_TYPES).union ReportingMode.REPORT_ALTERNATE_KEYS)
      ⟨KeyType.Unicode 'A', KeyType.Unicode 'a', KeyType.Unknown,
        KeyboardModifiers.SHIFT, EventType.Press, none⟩).fmt = "A" ∧
    (generate_sequence
      ((ReportingMode.DISAMBIGUATE_ESC_CODES.union
        ReportingMode.REPORT_EVENT_TYPES).union ReportingMode.REPORT_ALTERNATE_KEYS)
      ⟨KeyType.Unicode 'A', KeyType.Unicode 'a', KeyType.Unknown,
        KeyboardModifiers.SHIFT, EventType.Press, none⟩).fmt ≠ "\x1b[97:65;2u" := by
  decide

/-- Claim C2 (amended): the structured form `ESC[97:65;2u` for shifted 'A'
(primary code 97 of the unshifted base, shifted alternate 65, modifier value 2)
is produced only when the force-escape flag is set in addition to
disambiguate, event-types and alternate-keys; without force-escape the same
event yields a Character response serializing to `A`. -/
theorem shifted_A_structured_requires_force_escape :
    (generate_sequence
      (((ReportingMode.DISAMBIGUATE_ESC_CODES.union
        ReportingMode.REPORT_EVENT_TYPES).union
        ReportingMode.REPORT_ALTERNATE_KEYS).union
        ReportingMode.REPORT_ALL_KEYS_AS_ESC)
      ⟨KeyType.Unicode 'A', KeyType.Unicode 'a', KeyType.Unknown,
        KeyboardModifiers.SHIFT, EventType.Press, none⟩).fmt = "\x1b[97:65;2u" ∧
    (generate_sequence
      ((ReportingMode.DISAMBIGUATE_ESC_CODES.union
        ReportingMode.REPORT_EVENT_TYPES).union ReportingMode.REPORT_ALTERNATE_KEYS)
      ⟨KeyType.Unicode 'A', KeyType.Unicode 'a', KeyType.Unknown,
        KeyboardModifiers.SHIFT, EventType.Press, none⟩).fmt = "A" := by decide

/-- Claim C3: serializing a `Sequence` appends the trailing-field block
selected by the triple (modifier-set-is-empty, event kind, associated-text
present) by the six-rule first-match-wins precedence of the source match, and
the terminator is appended last, unconditionally, in every case. Each conjunct
is one rule, with the first-match semantics made explicit in its guards. -/
theorem sequence_trailing_field_precedence (s : Sequence) :
    (s.modifier.isEmpty = true → s.event_type = EventType.Press →
      s.associated_text = none →
      s.fmt = s.introducer.fmt ++ s.key_code.fmt ++ s.terminator.fmt) ∧
    (s.modifier.isEmpty = false → s.event_type = EventType.Press →
      s.associated_text = none →
      s.fmt = s.introducer.fmt ++ s.key_code.fmt ++ (";" ++ s.modifier.fmt) ++
        s.terminator.fmt) ∧
    (∀ a, s.modifier.isEmpty = true → s.event_type = EventType.Press →
      s.associated_text = some a →
      s.fmt = s.introducer.fmt ++ s.key_code.fmt ++ (";;" ++ a.fmt) ++
        s.terminator.fmt) ∧
    (s.event_type ≠ EventType.Press → s.associated_text = none →
      s.fmt = s.introducer.fmt ++ s.key_code.fmt ++
        (";" ++ s.modifier.fmt ++ ":" ++ s.event_type.fmt) ++ s.terminator.fmt) ∧
    (∀ a, s.modifier.isEmpty = false → s.event_type = EventType.Press →
      s.associated_text = some a →
      s.fmt = s.introducer.fmt ++ s.key_code.fmt ++
        (";" ++ s.modifier.fmt ++ ";" ++ a.fmt) ++ s.terminator.fmt) ∧
    (∀ a, s.event_type ≠ EventType.Press → s.associated_text = some a →
      s.fmt = s.introducer.fmt ++ s.key_code.fmt ++
        (";" ++ s.modifier.fmt ++ ":" ++ s.event_type.fmt ++ ";" ++ a.fmt) ++
        s.terminator.fmt) := by
  obtain ⟨i, k, m, et, a, t⟩ := s
  cases hm : m.isEmpty <;> cases et <;> cases a <;>
    refine ⟨?_, ?_, ?_, ?_, ?_, ?_⟩ <;> intros <;>
      simp_all [Sequence.fmt, Sequence.trailing, String.append_assoc]

/-- Witness for claim C3: rule 6 (non-Press event with text and non-empty
modifiers) at a concrete sequence. -/
theorem sequence_trailing_field_precedence_witness :
    Sequence.fmt ⟨SequenceIntroducer.CSI, ⟨123, some 456, some 789⟩, ⟨21⟩,
        EventType.Release, some ⟨"abc"⟩, SequenceTerminator.Other '~'⟩ =
      SequenceIntroducer.CSI.fmt ++ KeyCode.fmt ⟨123, some 456, some 789⟩ ++
        (";" ++ KeyboardModifiers.fmt ⟨21⟩ ++ ":" ++ EventType.Release.fmt ++
          ";" ++ AssociatedText.fmt ⟨"abc"⟩) ++
        (SequenceTerminator.Other '~').fmt :=
  (sequence_trailing_field_precedence _).2.2.2.2.2 ⟨"abc"⟩ (by decide) rfl

/-- Claim C4: for every `KeyCode` value the numeric key-code field serializes
as the spec describes: empty string when the primary code is 1 and both
alternates are absent, otherwise the decimal primary code followed by
`:shifted`, `::base`, or `:shifted:base` according to which alternates are
present. -/
theorem key_code_field_serialization (k : KeyCode) : k.fmt = claimKeyCodeFmt k := by
  obtain ⟨n, sh, b⟩ := k
  rcases sh with _ | sh <;> rcases b with _ | b <;> by_cases hn : n = 1 <;>
    simp_all [KeyCode.fmt, claimKeyCodeFmt, String.append_assoc]

/-- Claim C5: any Release event in a mode without event-type reporting maps to
`Nothing`, regardless of key identity, modifiers, or other mode flags. -/
theorem release_suppressed_without_event_types (mode : ReportingMode)
    (ev : KeyEvent) (h1 : ev.event_type = EventType.Release)
    (h2 : mode.intersects ReportingMode.REPORT_EVENT_TYPES = false) :
    generate_sequence mode ev = EventResponse.Nothing := by
  simp [generate_sequence, h1, h2]

/-- Witness for claim C5: releasing 'b' in the empty reporting mode. -/
theorem release_suppressed_without_event_types_witness :
    generate_sequence ReportingMode.emptySet
      ⟨KeyType.Unicode 'b', KeyType.Unicode 'b', KeyType.Unknown,
        KeyboardModifiers.emptySet, EventType.Release, none⟩ =
      EventResponse.Nothing :=
  release_suppressed_without_event_types _ _ rfl (by decide)

/-- Claim C6: a Release event never produces a Text or Character response in
any mode; and whenever response-shape selection yields a non-sequence shape
(Text, Character, or Nothing) for a Release event, the final result is
`Nothing`. -/
theorem release_never_text_or_character (mode : ReportingMode) (ev : KeyEvent)
    (h : ev.event_type = EventType.Release) :
    (generate_sequence mode ev).isTextOrCharacter = false ∧
    ((selectResponse mode ev).isSequenceResponse = false →
      generate_sequence mode ev = EventResponse.Nothing) := by
  unfold generate_sequence
  cases hsel : selectResponse mode ev <;>
    by_cases hm : mode.intersects ReportingMode.REPORT_EVENT_TYPES = false <;>
      simp_all [EventResponse.isTextOrCharacter, EventResponse.isSequenceResponse]

/-- Witness for claim C6: releasing 'b' with event-type reporting on selects a
Character shape, and the final release override turns it into `Nothing`. -/
theorem release_never_text_or_character_witness :
    generate_sequence ReportingMode.REPORT_EVENT_TYPES
      ⟨KeyType.Unicode 'b', KeyType.Unicode 'b', KeyType.Unknown,
        KeyboardModifiers.emptySet, EventType.Release, none⟩ =
      EventResponse.Nothing :=
  (release_never_text_or_character _ _ rfl).2 (by decide)

/-- Claim C7: the modifier set serializes numerically as its flag bits plus
one — for every in-range (8-bit) value, without wrapping — so the empty set
serializes as `1` and the full eight-flag set as `256`. -/
theorem modifier_numeric_encoding :
    (∀ m : KeyboardModifiers, m.bits < 256 → m.fmt = toString (m.bits + 1)) ∧
    KeyboardModifiers.emptySet.fmt = "1" ∧
    KeyboardModifiers.allSet.fmt = "256" := by
  refine ⟨fun m hm => ?_, by decide, by decide⟩
  unfold KeyboardModifiers.fmt
  rw [Nat.mod_eq_of_lt hm, Nat.mod_eq_of_lt (by omega)]

/-- Witness for claim C7: the full flag set, bits 255, serializes as 255 + 1. -/
theorem modifier_numeric_encoding_witness :
    KeyboardModifiers.fmt ⟨255⟩ = toString (255 + 1) :=
  modifier_numeric_encoding.1 ⟨255⟩ (by decide)

/-- Claim C8: in disambiguate mode with force-escape off, the legacy-treatment
branch is entered if and only if the modifiers with Shift discounted are empty
or the modifier-stripped key is Enter, Tab, or Backspace; inside the branch
the response is a function of the modifier-affected key alone
(`disambiguateLegacyResponse`), and otherwise the response falls back to the
modifier-stripped key's sequence skeleton. -/
theorem disambiguate_branch_characterization (mode : ReportingMode)
    (ev : KeyEvent)
    (h1 : mode.intersects ReportingMode.DISAMBIGUATE_ESC_CODES = true)
    (h2 : mode.intersects ReportingMode.REPORT_ALL_KEYS_AS_ESC = false) :
    selectResponse mode ev =
      if (ev.modifiers.difference KeyboardModifiers.SHIFT).isEmpty ||
          isLegacyException ev.key_without_modifiers then
        disambiguateLegacyResponse ev.key_with_modifiers
      else
        match ev.key_without_modifiers.to_sequence with
        | some sequence => EventResponse.Sequence sequence
        | none => EventResponse.Nothing := by
  simp only [selectResponse, h1, h2, Bool.false_eq_true, if_false, if_true]
  rfl

/-- Witness for claim C8: Ctrl+Shift+Enter in disambiguate mode — non-Shift
modifiers are present, yet the Enter exception routes the event through the
legacy-treatment branch acting on the modifier-affected key. -/
theorem disambiguate_branch_characterization_witness :
    selectResponse ReportingMode.DISAMBIGUATE_ESC_CODES
      ⟨KeyType.Functional FunctionalKey.Enter, KeyType.Functional FunctionalKey.Enter,
        KeyType.Unknown, ⟨5⟩, EventType.Press, none⟩ =
      disambiguateLegacyResponse (KeyType.Functional FunctionalKey.Enter) := by
  have h := disambiguate_branch_characterization ReportingMode.DISAMBIGUATE_ESC_CODES
    ⟨KeyType.Functional FunctionalKey.Enter, KeyType.Functional FunctionalKey.Enter,
      KeyType.Unknown, ⟨5⟩, EventType.Press, none⟩ (by decide) (by decide)
  rw [h]
  decide

/-- Claim C9: in legacy mode, an event whose modifier-affected key is a
functional key produces Text with the key's legacy representation if one
exists, else Text with the event's associated text if present, else the
structured sequence built from the key's skeleton; the legacy representation
wins over associated text, and the alt-pressed flag of both Text cases equals
whether the Alt modifier is active. -/
theorem legacy_functional_key_response (mode : ReportingMode) (ev : KeyEvent)
    (func : FunctionalKey)
    (h1 : mode.intersects ReportingMode.DISAMBIGUATE_ESC_CODES = false)
    (h2 : mode.intersects ReportingMode.REPORT_ALL_KEYS_AS_ESC = false)
    (h3 : ev.key_with_modifiers = KeyType.Functional func) :
    selectResponse mode ev =
      match func.legacy_representation with
      | some repr =>
          EventResponse.Text repr (ev.modifiers.intersects KeyboardModifiers.ALT)
      | none =>
          match ev.associated_text with
          | some a =>
              EventResponse.Text a.text
                (ev.modifiers.intersects KeyboardModifiers.ALT)
          | none => EventResponse.Sequence func.to_sequence := by
  simp only [selectResponse, h1, h2, h3, Bool.false_eq_true, if_false]
  rcases hl : func.legacy_representation with _ | repr <;>
    rcases ha : ev.associated_text with _ | a <;>
      simp [Option.or, hl, ha]

/-- Witness for claim C9: Alt+Enter with associated text "x" in legacy mode —
the legacy representation wins over the associated text and the alt flag is
set. -/
theorem legacy_functional_key_response_witness :
    selectResponse ReportingMode.emptySet
      ⟨KeyType.Functional FunctionalKey.Enter, KeyType.Unknown, KeyType.Unknown,
        KeyboardModifiers.ALT, EventType.Press, some ⟨"x"⟩⟩ =
      EventResponse.Text "\r" true := by
  have h := legacy_functional_key_response ReportingMode.emptySet
    ⟨KeyType.Functional FunctionalKey.Enter, KeyType.Unknown, KeyType.Unknown,
      KeyboardModifiers.ALT, EventType.Press, some ⟨"x"⟩⟩
    FunctionalKey.Enter (by decide) (by decide) rfl
  rw [h]
  decide

/-- Claim C10: a Text or Character response serializes as the ESC byte
prepended to the text or character when the alt-pressed flag is set, and bare
otherwise; a Nothing response serializes to the empty string. -/
theorem event_response_serialization :
    (∀ (text : String) (alt : Bool),
      (EventResponse.Text text alt).fmt = (if alt then "\x1b" else "") ++ text) ∧
    (∀ (character : Char) (alt : Bool),
      (EventResponse.Character character alt).fmt =
        (if alt then "\x1b" else "") ++ String.mk [character]) ∧
    EventResponse.Nothing.fmt = "" := by
  refine ⟨fun t a => ?_, fun c a => ?_, rfl⟩ <;> cases a <;>
    simp [EventResponse.fmt]
